import Mathlib

/-!
Verification development for the photobooth LAN print server's print dispatch
subsystem (source files: src/print.ts and src/index.ts).

External OS command invocations are modelled by an outcome oracle
(the k-th external invocation succeeds iff the oracle returns true at k) and
an explicit trace of the invocations issued, so that ordering, fallback and
per-copy repetition become provable facts about pure functions.
-/

/-- Structured page-size hint carried by a print job (widthInch/heightInch). -/
structure PaperSize where
  widthInch : Nat
  heightInch : Nat
deriving DecidableEq

/-- Mirror of the PrintOptions interface of src/print.ts. -/
structure PrintOptions where
  filePath : String
  copies : Nat
  printerName : Option String
  hasAccess : Bool
  paperSize : Option PaperSize
deriving DecidableEq

/-- One external OS command invocation, as issued by src/print.ts.
dotNetScript carries the values interpolated into the fixed PowerShell
script of printWithDotNetPrinting (escaped file path, copy count, escaped
printer name); the script text itself is fixed and has no other inputs. -/
inductive ExecCall where
  | dotNetScript (escapedFilePath : String) (copies : Nat) (escapedPrinterName : String)
  | startProcessPrint (filePath : String)
  | imageView (dllEntry : String) (filePath : String) (printerArg : Option String)
  | lp (args : List String)
deriving DecidableEq

/-- Trace of external invocations issued, in order. -/
abbrev Trace := List ExecCall

/-- Decidable equality of Except values, for evaluating dispatch outcomes at
concrete inputs. -/
instance {ε α : Type} [DecidableEq ε] [DecidableEq α] : DecidableEq (Except ε α) :=
  fun x y =>
    match x, y with
    | Except.ok a, Except.ok b => decidable_of_iff (a = b) (by simp)
    | Except.error a, Except.error b => decidable_of_iff (a = b) (by simp)
    | Except.ok _, Except.error _ => isFalse fun h => Except.noConfusion h
    | Except.error _, Except.ok _ => isFalse fun h => Except.noConfusion h

/-- Outcome oracle: whether the k-th external invocation (0-based, counted
across the whole dispatch) exits successfully. -/
abbrev ExecEnv := Nat → Bool

/-- Apostrophe character, written by code to avoid a bare literal. -/
def quoteChar : Char := Char.ofNat 39

/-- Mirror of the PowerShell single-quote escaping in printWithDotNetPrinting:
s.replace(quote-regex, two quotes). -/
def psEscape (s : String) : String :=
  String.join (s.data.map (fun c =>
    if c = quoteChar then String.mk [quoteChar, quoteChar] else String.singleton c))

/-- JS String.prototype.toLowerCase over the characters of a string. -/
def lowerStr (s : String) : String := String.mk (s.data.map Char.toLower)

/-- JS String.prototype.endsWith / an anchored regex suffix test. -/
def strEndsWith (s suffix : String) : Bool := suffix.data.isSuffixOf s.data

/-- JS String.prototype.trim: whitespace stripped from both ends. -/
def jsTrim (s : String) : String :=
  String.mk (((s.data.dropWhile Char.isWhitespace).reverse.dropWhile
    Char.isWhitespace).reverse)

/-- JS String.prototype.split on the newline character. -/
def splitNewlines : List Char → List (List Char)
  | [] => [[]]
  | c :: rest =>
    match splitNewlines rest with
    | [] => [[c]]
    | l :: ls => if c = Char.ofNat 10 then [] :: l :: ls else (c :: l) :: ls

/-- Modelled constant: the package root directory (dirname(__dirname) at runtime).
No claim depends on its concrete value. -/
def packageRoot : String := "/opt/photobooth-lan-print-server"

/-- The fixed bundled placeholder image: join(dirname(__dirname), "src", "public",
"images", "watermark.jpg") in src/print.ts. -/
def watermarkPath : String := packageRoot ++ "/src/public/images/watermark.jpg"

/-- Modelled constant: value of process.env.SystemRoot at runtime.
No claim depends on its concrete value. -/
def systemRoot : String := "C:\\Windows"

/-- The rundll32 entry string of printWithImageView. -/
def dllEntry : String := systemRoot ++ "\\System32\\shimgvw.dll,ImageView_PrintTo"

/-- JS test `printerName && printerName.trim().length > 0` on an optional string. -/
def trimNonEmpty : Option String → Bool
  | none => false
  | some p => decide (0 < (jsTrim p).length)

/-- The escaped printer name interpolated into the .NET printing script:
`printerName ? printerName.replace(...) : ''` (empty string when falsy). -/
def escapedPrinter : Option String → String
  | some p => if p == "" then "" else psEscape p
  | none => ""

/-- The single invocation issued by printWithDotNetPrinting for a given job. -/
def dotNetCall (filePath : String) (copies : Nat) (printerName : Option String) : ExecCall :=
  ExecCall.dotNetScript (psEscape filePath) copies (escapedPrinter printerName)

/-- The per-copy invocation issued by printWithImageView: rundll32 with the
dll entry, the file, and the printer name only when trim-nonempty. -/
def imageViewCall (filePath : String) (printerName : Option String) : ExecCall :=
  ExecCall.imageView dllEntry filePath
    (if trimNonEmpty printerName then printerName else none)

/-- Sequential per-copy loop (`for (let i = 0; i < copies; i++) await exec...`):
issue the invocation, consume one oracle outcome; a failed invocation throws,
aborting the loop. Returns (result, next oracle index, trace). -/
def printLoop (env : ExecEnv) (call : ExecCall) : Nat → Nat → Except Unit Unit × Nat × Trace
  | k, 0 => (Except.ok (), k, [])
  | k, n + 1 =>
    if env k then
      let r := printLoop env call (k + 1) n
      (r.1, r.2.1, call :: r.2.2)
    else (Except.error (), k + 1, [call])

/-- Whether a run of n sequential invocations starting at oracle index k all succeed. -/
def loopOk (env : ExecEnv) : Nat → Nat → Bool
  | _, 0 => true
  | k, n + 1 => env k && loopOk env (k + 1) n

/-- Number of invocations actually issued by a per-copy loop of n copies starting
at oracle index k (the loop stops after its first failing invocation). -/
def loopCalls (env : ExecEnv) : Nat → Nat → Nat
  | _, 0 => 0
  | k, n + 1 => if env k then 1 + loopCalls env (k + 1) n else 1

/-- Mirror of printWithDotNetPrinting (src/print.ts:74-209): one single
powershell invocation whose script interpolates the escaped file path, the
copy count (set natively via PrinterSettings.Copies) and the escaped printer name. -/
def printWithDotNetPrinting (env : ExecEnv) (k : Nat) (filePath : String) (copies : Nat)
    (printerName : Option String) (paperSize : Option PaperSize) :
    Except Unit Unit × Nat × Trace :=
  ((if env k then Except.ok () else Except.error ()), k + 1,
    [dotNetCall filePath copies printerName])

/-- Mirror of printWithPowerShell (src/print.ts:217-229): one Start-Process
print-verb invocation per copy, sequentially. -/
def printWithPowerShell (env : ExecEnv) (k : Nat) (filePath : String) (copies : Nat)
    (printerName : Option String) (paperSize : Option PaperSize) :
    Except Unit Unit × Nat × Trace :=
  printLoop env (ExecCall.startProcessPrint filePath) k copies

/-- Mirror of printWithImageView (src/print.ts:231-241): one rundll32
ImageView invocation per copy, sequentially. -/
def printWithImageView (env : ExecEnv) (k : Nat) (filePath : String) (copies : Nat)
    (printerName : Option String) (paperSize : Option PaperSize) :
    Except Unit Unit × Nat × Trace :=
  printLoop env (imageViewCall filePath printerName) k copies

/-- Mirror of isImageFile (src/print.ts:243-245): case-insensitive test of the
file extension against the fixed set, per the regex over png|jpg|jpeg|bmp|gif. -/
def imageExtensions : List String := ["png", "jpg", "jpeg", "bmp", "gif"]

/-- The extension test itself (regex with trailing anchor, case-insensitive). -/
def isImageFile (filePath : String) : Bool :=
  imageExtensions.any (fun e => strEndsWith (lowerStr filePath) ("." ++ e))

/-- Mirror of tryWindowsPrintMethods (src/print.ts:44-72): try method 1, on
failure method 2, on failure method 3 but only for image files; true on the
first success, false when every applicable method failed. -/
def tryWindowsPrintMethods (env : ExecEnv) (k : Nat) (filePath : String) (copies : Nat)
    (printerName : Option String) (paperSize : Option PaperSize) : Bool × Nat × Trace :=
  match printWithDotNetPrinting env k filePath copies printerName paperSize with
  | (Except.ok _, k1, t1) => (true, k1, t1)
  | (Except.error _, k1, t1) =>
    match printWithPowerShell env k1 filePath copies printerName paperSize with
    | (Except.ok _, k2, t2) => (true, k2, t1 ++ t2)
    | (Except.error _, k2, t2) =>
      if isImageFile filePath then
        match printWithImageView env k2 filePath copies printerName paperSize with
        | (Except.ok _, k3, t3) => (true, k3, t1 ++ t2 ++ t3)
        | (Except.error _, k3, t3) => (false, k3, t1 ++ t2 ++ t3)
      else (false, k2, t1 ++ t2)

/-- Errors thrown by print: the Windows all-methods-failed error, or the
rejection of the single lp invocation on other platforms. -/
inductive PrintError where
  | allMethodsFailed
  | execFailure
deriving DecidableEq

/-- Message carried by a print error (err.message in the handler). -/
def printErrorMessage : PrintError → String
  | PrintError.allMethodsFailed => "All Windows printing methods failed"
  | PrintError.execFailure => "print command failed"

/-- Mirror of print (src/print.ts:20-42): restricted-mode substitution of the
placeholder artifact and a forced single copy, then the Windows fallback chain
or the single lp invocation. -/
def print (env : ExecEnv) (platform : String) (opts : PrintOptions) :
    Except PrintError Unit × Nat × Trace :=
  let isWindows := platform == "win32"
  let fileToPrint := if opts.hasAccess then opts.filePath else watermarkPath
  let copiesToPrint := if opts.hasAccess then opts.copies else 1
  if isWindows then
    match tryWindowsPrintMethods env 0 fileToPrint copiesToPrint opts.printerName opts.paperSize with
    | (true, k, t) => (Except.ok (), k, t)
    | (false, k, t) => (Except.error PrintError.allMethodsFailed, k, t)
  else
    let args :=
      (match opts.printerName with
        | some p => if 0 < (jsTrim p).length then ["-d", p] else []
        | none => []) ++ ["-n", toString copiesToPrint, fileToPrint]
    ((if env 0 then Except.ok () else Except.error PrintError.execFailure), 1,
      [ExecCall.lp args])

/-- Which dispatch method issued a call (1-3 = the Windows chain, 0 = lp). -/
def callMethod : ExecCall → Nat
  | ExecCall.dotNetScript _ _ _ => 1
  | ExecCall.startProcessPrint _ => 2
  | ExecCall.imageView _ _ _ => 3
  | ExecCall.lp _ => 0

/-- Number of invocations a given method issued within a trace. -/
def methodCalls (m : Nat) (t : Trace) : Nat :=
  (t.filter (fun c => callMethod c = m)).length

/-- The file named by an invocation (for lp, its trailing argument). -/
def callFile : ExecCall → Option String
  | ExecCall.dotNetScript f _ _ => some f
  | ExecCall.startProcessPrint f => some f
  | ExecCall.imageView _ f _ => some f
  | ExecCall.lp args => args.getLast?

/-- Trace of a full dispatch. -/
def printTrace (env : ExecEnv) (platform : String) (opts : PrintOptions) : Trace :=
  (print env platform opts).2.2

/-- Result of a full dispatch. -/
def printResult (env : ExecEnv) (platform : String) (opts : PrintOptions) :
    Except PrintError Unit :=
  (print env platform opts).1

/-- Job options with full access (hasAccess = true), as the Windows-path claims use. -/
def winOpts (f : String) (c : Nat) (pn : Option String) (ps : Option PaperSize) :
    PrintOptions :=
  { filePath := f, copies := c, printerName := pn, hasAccess := true, paperSize := ps }

/-- The sequence of methods that issued each invocation of a dispatch, in order. -/
def methodSelection (env : ExecEnv) (platform : String) (opts : PrintOptions) : List Nat :=
  (printTrace env platform opts).map callMethod

/-!
Printer inventory (src/print.ts:247-294). The external query is modelled as an
Except value: error for a rejected command, ok with the raw stdout otherwise.
Both operations wrap their whole body in a catch that collapses every failure
to an absent value / empty list.
-/

/-- Literal searched by the lpstat -d parse regex before the whitespace and token. -/
def defaultDestPattern : List Char := "system default destination:".data

/-- Longest non-whitespace token at the head of the input (the regex token part). -/
def takeToken (s : List Char) : List Char := s.takeWhile (fun c => !c.isWhitespace)

/-- Attempt to match, at the head of the input, the lpstat default-destination
pattern: the literal, at least one whitespace, then a non-empty token. -/
def tryMatchDefaultAt (s : List Char) : Option String :=
  if s.take defaultDestPattern.length = defaultDestPattern then
    let rest := s.drop defaultDestPattern.length
    let ws := rest.takeWhile Char.isWhitespace
    if ws.isEmpty then none
    else
      let tok := takeToken (rest.drop ws.length)
      if tok.isEmpty then none else some (String.mk tok)
  else none

/-- Regex search of stdout.match over the default-destination pattern: first
position where the whole pattern matches, yielding the captured token. -/
def matchDefaultDest : List Char → Option String
  | [] => none
  | c :: rest =>
    match tryMatchDefaultAt (c :: rest) with
    | some tok => some tok
    | none => matchDefaultDest rest

/-- Mirror of detectDefaultPrinter (src/print.ts:247-269): on Windows the
trimmed stdout or absent when empty; otherwise the parsed lpstat default
destination; absent on any command failure (the catch). -/
def detectDefaultPrinter (isWindows : Bool) (execResult : Except Unit String) :
    Option String :=
  match execResult with
  | Except.error _ => none
  | Except.ok stdout =>
    if isWindows then
      if jsTrim stdout == "" then none else some (jsTrim stdout)
    else
      matchDefaultDest stdout.data

/-- Literal at the head of each lpstat -p printer line match. -/
def printerLinePattern : List Char := "printer".data

/-- Attempt to match, at the head of the input, one occurrence of the printer
pattern (literal, whitespace+, token+); yields the token and the rest of the
input after the full match, as the global regex scan resumes there. -/
def tryMatchPrinterAt (s : List Char) : Option (String × List Char) :=
  if s.take printerLinePattern.length = printerLinePattern then
    let rest := s.drop printerLinePattern.length
    let ws := rest.takeWhile Char.isWhitespace
    if ws.isEmpty then none
    else
      let tok := takeToken (rest.drop ws.length)
      if tok.isEmpty then none
      else some (String.mk tok, (rest.drop ws.length).drop tok.length)
  else none

/-- Global regex scan of stdout.match over the printer pattern, fuelled by the
input length: each successful match consumes at least the pattern literal, so
the initial fuel of scanPrinters is always sufficient. -/
def scanPrintersFuel : Nat → List Char → List String
  | 0, _ => []
  | _, [] => []
  | fuel + 1, c :: rest =>
    match tryMatchPrinterAt (c :: rest) with
    | some (tok, remaining) => tok :: scanPrintersFuel fuel remaining
    | none => scanPrintersFuel fuel rest

/-- All matches of the lpstat -p printer pattern, each reduced to its token
(the map-replace step of getAvailablePrinters). -/
def scanPrinters (s : List Char) : List String := scanPrintersFuel s.length s

/-- Mirror of getAvailablePrinters (src/print.ts:272-294): on Windows the
trimmed stdout split on newlines with blank lines dropped; otherwise the
scanned lpstat printer names; empty on any command failure (the catch). -/
def getAvailablePrinters (isWindows : Bool) (execResult : Except Unit String) :
    List String :=
  match execResult with
  | Except.error _ => []
  | Except.ok stdout =>
    if isWindows then
      ((splitNewlines (jsTrim stdout).data).map String.mk).filter
        (fun name => 0 < (jsTrim name).length)
    else
      scanPrinters stdout.data

/-!
HTTP handler models (src/index.ts). Request fields, the process-wide printer
state, and the oracle results of the filesystem and dispatch effects are
explicit inputs; responses and the post-handler file state are explicit outputs.
Console logging and the print counter are elided as claim-irrelevant.
-/

/-- Process-wide printer state of src/index.ts: the printerName and
availablePrinters module variables. -/
structure ServerState where
  printerName : String
  availablePrinters : List String
deriving DecidableEq

/-- Parsed body of a POST /print request; data is none when the field is
missing or not a string. -/
structure ReqBody where
  copies : Nat := 1
  mimeType : String := "image/png"
  data : Option String := none
  targetPrinter : Option String := none
  hasAccess : Bool := false
  template : Option PaperSize := none
deriving DecidableEq

/-- JS `a || b` on an optional string versus a string default: the left value
unless it is absent or empty. -/
def jsOrString : Option String → String → String
  | some s, dflt => if s == "" then dflt else s
  | none, dflt => dflt

/-- The warning condition of src/index.ts:251: selected printer truthy, not the
literal default, and absent from the known-printers snapshot. -/
def printerWarning (sel : String) (avail : List String) : Bool :=
  !(sel == "") && sel != "default" && !(avail.contains sel)

/-- Temporary-file extension choice of src/index.ts:258. -/
def extFor (mimeType : String) : String :=
  if mimeType = "image/jpeg" then "jpg" else "png"

/-- Paper-size derivation of src/index.ts:267-274: a 2x6 template is printed
on 4x6 stock; anything else passes no page-size hint. -/
def paperSizeForTemplate : Option PaperSize → Option PaperSize
  | some t => if t.widthInch = 2 ∧ t.heightInch = 6 then some (PaperSize.mk 4 6) else none
  | none => none

/-- Observable outcome of the POST /print handler: response fields, whether the
not-in-inventory warning fired, the dispatch invocation (if reached) and its
trace, whether artifact removal was attempted, and whether the artifact still
exists afterwards. -/
structure PostPrintResult where
  status : Nat
  success : Option Bool
  errorMsg : Option String
  warned : Bool
  dispatched : Option PrintOptions
  trace : Trace
  rmAttempted : Bool
  fileExistsAfter : Bool
deriving DecidableEq

/-- Mirror of the POST /print handler (src/index.ts:240-313): validate data —
the guard `!data || typeof data !== "string"` rejects a missing, non-string or
(by JS falsiness) empty data field with 400 before anything else runs — then
resolve the printer, warn permissively, write the artifact to the scratch
directory as jobId.ext, dispatch, and in the finally block remove the artifact
with removal failures swallowed. writeOk and rmOk are the oracle outcomes of
fs.writeFile and fs.rm. -/
def printHandler (env : ExecEnv) (platform : String) (st : ServerState) (req : ReqBody)
    (jobId tmpDir : String) (writeOk rmOk : Bool) : PostPrintResult :=
  match req.data with
  | none =>
    { status := 400, success := none, errorMsg := some "Missing base64 data",
      warned := false, dispatched := none, trace := [], rmAttempted := false,
      fileExistsAfter := false }
  | some d =>
    if d == "" then
      { status := 400, success := none, errorMsg := some "Missing base64 data",
        warned := false, dispatched := none, trace := [], rmAttempted := false,
        fileExistsAfter := false }
    else
    let sel := jsOrString req.targetPrinter st.printerName
    let warned := printerWarning sel st.availablePrinters
    let filePath := tmpDir ++ "/" ++ jobId ++ "." ++ extFor req.mimeType
    if writeOk then
      let opts : PrintOptions :=
        { filePath := filePath, copies := req.copies, printerName := some sel,
          hasAccess := req.hasAccess, paperSize := paperSizeForTemplate req.template }
      match print env platform opts with
      | (Except.ok _, _, t) =>
        { status := 200, success := some true, errorMsg := none, warned := warned,
          dispatched := some opts, trace := t, rmAttempted := true,
          fileExistsAfter := !rmOk }
      | (Except.error e, _, t) =>
        { status := 500, success := some false, errorMsg := some (printErrorMessage e),
          warned := warned, dispatched := some opts, trace := t, rmAttempted := true,
          fileExistsAfter := !rmOk }
    else
      { status := 500, success := some false, errorMsg := some "write failure",
        warned := warned, dispatched := none, trace := [], rmAttempted := true,
        fileExistsAfter := false }

/-- Response of the GET /printers/refresh handler; printers is the
availablePrinters field of the success body, absent from the error body. -/
structure RefreshResult where
  status : Nat
  success : Bool
  errorMsg : Option String
  printers : Option (List String)
deriving DecidableEq

/-- Mirror of the GET /printers/refresh handler (src/index.ts:220-238): store
and report the fresh enumeration on success; on a thrown enumeration respond
500 with the fixed error and leave the stored snapshot untouched. -/
def refreshHandler (st : ServerState) (enumResult : Except Unit (List String)) :
    RefreshResult × ServerState :=
  match enumResult with
  | Except.ok ps =>
    ({ status := 200, success := true, errorMsg := none, printers := some ps },
     { st with availablePrinters := ps })
  | Except.error _ =>
    ({ status := 500, success := false,
       errorMsg := some "Failed to refresh printers", printers := none },
     st)

/-!
Helper lemmas about the per-copy loop and the Windows chain.
-/

/-- A per-copy loop is fully determined by whether its prefix of outcomes all
succeed and by the number of invocations until the first failure. -/
theorem printLoop_eq (env : ExecEnv) (call : ExecCall) (k n : Nat) :
    printLoop env call k n =
      ((if loopOk env k n then Except.ok () else Except.error ()),
       k + loopCalls env k n, List.replicate (loopCalls env k n) call) := by
  induction n generalizing k with
  | zero => simp [printLoop, loopOk, loopCalls]
  | succ n ih =>
    by_cases h : env k
    · simp [printLoop, loopOk, loopCalls, h, ih (k + 1), Nat.one_add,
        List.replicate_succ]
      omega
    · simp [printLoop, loopOk, loopCalls, h]

/-- A fully successful loop issues exactly one invocation per copy. -/
theorem loopCalls_of_loopOk (env : ExecEnv) (k n : Nat) (h : loopOk env k n = true) :
    loopCalls env k n = n := by
  induction n generalizing k with
  | zero => simp [loopCalls]
  | succ n ih =>
    simp [loopOk, Bool.and_eq_true] at h
    simp [loopCalls, h.1, ih (k + 1) h.2]
    omega

/-- A loop over at least one copy issues at least one invocation. -/
theorem loopCalls_pos (env : ExecEnv) (k n : Nat) (h : 0 < n) :
    0 < loopCalls env k n := by
  cases n with
  | zero => omega
  | succ n =>
    simp only [loopCalls]
    split <;> omega

/-- Full characterization of the Windows fallback chain: result, final oracle
index and trace, by cases on which methods fail. -/
theorem tryWindows_eq (env : ExecEnv) (f : String) (c : Nat) (pn : Option String)
    (ps : Option PaperSize) :
    tryWindowsPrintMethods env 0 f c pn ps =
      if env 0 then (true, 1, [dotNetCall f c pn])
      else if loopOk env 1 c then
        (true, 1 + loopCalls env 1 c,
         dotNetCall f c pn ::
           List.replicate (loopCalls env 1 c) (ExecCall.startProcessPrint f))
      else if isImageFile f then
        (loopOk env (1 + loopCalls env 1 c) c,
         1 + loopCalls env 1 c + loopCalls env (1 + loopCalls env 1 c) c,
         dotNetCall f c pn ::
           (List.replicate (loopCalls env 1 c) (ExecCall.startProcessPrint f) ++
            List.replicate (loopCalls env (1 + loopCalls env 1 c) c)
              (imageViewCall f pn)))
      else
        (false, 1 + loopCalls env 1 c,
         dotNetCall f c pn ::
           List.replicate (loopCalls env 1 c) (ExecCall.startProcessPrint f)) := by
  by_cases h0 : env 0
  · simp [tryWindowsPrintMethods, printWithDotNetPrinting, h0]
  · by_cases h1 : loopOk env 1 c
    · simp [tryWindowsPrintMethods, printWithDotNetPrinting, printWithPowerShell,
        printLoop_eq, h0, h1]
    · by_cases h2 : isImageFile f
      · by_cases h3 : loopOk env (1 + loopCalls env 1 c) c
        · simp [tryWindowsPrintMethods, printWithDotNetPrinting, printWithPowerShell,
            printWithImageView, printLoop_eq, h0, h1, h2, h3]
        · simp [tryWindowsPrintMethods, printWithDotNetPrinting, printWithPowerShell,
            printWithImageView, printLoop_eq, h0, h1, h2, h3]
      · simp [tryWindowsPrintMethods, printWithDotNetPrinting, printWithPowerShell,
          printLoop_eq, h0, h1, h2]

/-- Counting a method's invocations distributes over trace concatenation. -/
theorem methodCalls_append (m : Nat) (t1 t2 : Trace) :
    methodCalls m (t1 ++ t2) = methodCalls m t1 + methodCalls m t2 := by
  simp [methodCalls, List.filter_append]

/-- Counting a method's invocations over a cons trace. -/
theorem methodCalls_cons (m : Nat) (c : ExecCall) (t : Trace) :
    methodCalls m (c :: t) = (if callMethod c = m then 1 else 0) + methodCalls m t := by
  by_cases h : callMethod c = m <;> simp [methodCalls, List.filter_cons, h] <;> omega

/-- Counting a method's invocations over a homogeneous run. -/
theorem methodCalls_replicate (m n : Nat) (c : ExecCall) :
    methodCalls m (List.replicate n c) = if callMethod c = m then n else 0 := by
  induction n with
  | zero => simp [methodCalls]
  | succ n ih =>
    rw [List.replicate_succ, methodCalls_cons, ih]
    by_cases h : callMethod c = m <;> simp [h] <;> omega

/-- On the Windows platform the dispatch is the fallback chain, wrapped into
the thrown AllMethodsFailed error when the chain reports failure. -/
theorem print_win (env : ExecEnv) (f : String) (c : Nat) (pn : Option String)
    (ps : Option PaperSize) :
    print env "win32" (winOpts f c pn ps) =
      (match tryWindowsPrintMethods env 0 f c pn ps with
       | (true, k, t) => (Except.ok (), k, t)
       | (false, k, t) => (Except.error PrintError.allMethodsFailed, k, t)) := rfl

/-- The dispatch trace on Windows is the chain's trace. -/
theorem printTrace_win (env : ExecEnv) (f : String) (c : Nat) (pn : Option String)
    (ps : Option PaperSize) :
    printTrace env "win32" (winOpts f c pn ps) =
      (tryWindowsPrintMethods env 0 f c pn ps).2.2 := by
  rw [printTrace, print_win]
  rcases tryWindowsPrintMethods env 0 f c pn ps with ⟨b, k, t⟩
  cases b <;> rfl

/-- The dispatch result on Windows succeeds iff the chain reports success. -/
theorem printResult_win (env : ExecEnv) (f : String) (c : Nat) (pn : Option String)
    (ps : Option PaperSize) :
    printResult env "win32" (winOpts f c pn ps) =
      (if (tryWindowsPrintMethods env 0 f c pn ps).1 then Except.ok ()
       else Except.error PrintError.allMethodsFailed) := by
  rw [printResult, print_win]
  rcases tryWindowsPrintMethods env 0 f c pn ps with ⟨b, k, t⟩
  cases b <;> rfl

/-- C1: on Windows hosts the three methods are tried strictly in order; a
success stops the chain and dispatch succeeds; each failure is caught and the
chain proceeds; when every applicable method fails, dispatch fails with the
AllMethodsFailed error and nothing further is attempted. -/
theorem dispatch_windows_chain (env : ExecEnv) (f : String) (c : Nat)
    (pn : Option String) (ps : Option PaperSize) (hc : 1 ≤ c) :
    (methodSelection env "win32" (winOpts f c pn ps) =
      1 :: (List.replicate (methodCalls 2 (printTrace env "win32" (winOpts f c pn ps))) 2 ++
            List.replicate (methodCalls 3 (printTrace env "win32" (winOpts f c pn ps))) 3))
    ∧ (env 0 = true →
        printResult env "win32" (winOpts f c pn ps) = Except.ok () ∧
        methodSelection env "win32" (winOpts f c pn ps) = [1])
    ∧ (env 0 = false → 0 < methodCalls 2 (printTrace env "win32" (winOpts f c pn ps)))
    ∧ (env 0 = false → loopOk env 1 c = true →
        printResult env "win32" (winOpts f c pn ps) = Except.ok () ∧
        methodCalls 3 (printTrace env "win32" (winOpts f c pn ps)) = 0)
    ∧ (env 0 = false → loopOk env 1 c = false → isImageFile f = true →
        0 < methodCalls 3 (printTrace env "win32" (winOpts f c pn ps)))
    ∧ (env 0 = false → loopOk env 1 c = false →
        (isImageFile f = true → loopOk env (1 + loopCalls env 1 c) c = false) →
        printResult env "win32" (winOpts f c pn ps) =
          Except.error PrintError.allMethodsFailed) := by
  by_cases h0 : env 0
  · have ht : printTrace env "win32" (winOpts f c pn ps) = [dotNetCall f c pn] := by
      rw [printTrace_win, tryWindows_eq]; simp [h0]
    have hr : printResult env "win32" (winOpts f c pn ps) = Except.ok () := by
      rw [printResult_win, tryWindows_eq]; simp [h0]
    refine ⟨?_, fun _ => ⟨hr, ?_⟩, fun h => by simp [h] at h0, fun h => by simp [h] at h0,
        fun h => by simp [h] at h0, fun h => by simp [h] at h0⟩ <;>
      simp [methodSelection, ht, methodCalls_cons, methodCalls, callMethod, dotNetCall]
  · by_cases h1 : loopOk env 1 c
    · have ht : printTrace env "win32" (winOpts f c pn ps) =
          dotNetCall f c pn ::
            List.replicate (loopCalls env 1 c) (ExecCall.startProcessPrint f) := by
        rw [printTrace_win, tryWindows_eq]; simp [h0, h1]
      have hr : printResult env "win32" (winOpts f c pn ps) = Except.ok () := by
        rw [printResult_win, tryWindows_eq]; simp [h0, h1]
      have hm2 : methodCalls 2 (printTrace env "win32" (winOpts f c pn ps)) =
          loopCalls env 1 c := by
        simp [ht, methodCalls_cons, methodCalls_replicate, callMethod, dotNetCall]
      have hm3 : methodCalls 3 (printTrace env "win32" (winOpts f c pn ps)) = 0 := by
        simp [ht, methodCalls_cons, methodCalls_replicate, callMethod, dotNetCall]
      refine ⟨?_, fun h => by simp [h] at h0, fun _ => ?_, fun _ _ => ⟨hr, hm3⟩,
        fun _ h => by simp [h] at h1, fun _ h => by simp [h] at h1⟩
      · rw [hm2, hm3, methodSelection, ht]
        simp [callMethod, dotNetCall, List.map_replicate]
      · rw [hm2]
        exact loopCalls_pos env 1 c (by omega)
    · by_cases h2 : isImageFile f
      · have ht : printTrace env "win32" (winOpts f c pn ps) =
            dotNetCall f c pn ::
              (List.replicate (loopCalls env 1 c) (ExecCall.startProcessPrint f) ++
               List.replicate (loopCalls env (1 + loopCalls env 1 c) c)
                 (imageViewCall f pn)) := by
          rw [printTrace_win, tryWindows_eq]; simp [h0, h1, h2]
        have hr : printResult env "win32" (winOpts f c pn ps) =
            (if loopOk env (1 + loopCalls env 1 c) c then Except.ok ()
             else Except.error PrintError.allMethodsFailed) := by
          rw [printResult_win, tryWindows_eq]; simp [h0, h1, h2]
        have hm2 : methodCalls 2 (printTrace env "win32" (winOpts f c pn ps)) =
            loopCalls env 1 c := by
          simp [ht, methodCalls_cons, methodCalls_append, methodCalls_replicate,
            callMethod, dotNetCall, imageViewCall]
        have hm3 : methodCalls 3 (printTrace env "win32" (winOpts f c pn ps)) =
            loopCalls env (1 + loopCalls env 1 c) c := by
          simp [ht, methodCalls_cons, methodCalls_append, methodCalls_replicate,
            callMethod, dotNetCall, imageViewCall]
        refine ⟨?_, fun h => by simp [h] at h0, fun _ => ?_,
          fun _ h => by simp [h] at h1, fun _ _ _ => ?_, fun _ _ hall => ?_⟩
        · rw [hm2, hm3, methodSelection, ht]
          simp [callMethod, dotNetCall, imageViewCall, List.map_replicate]
        · rw [hm2]; exact loopCalls_pos env 1 c (by omega)
        · rw [hm3]; exact loopCalls_pos env _ c (by omega)
        · rw [hr]
          simp [hall h2]
      · have ht : printTrace env "win32" (winOpts f c pn ps) =
            dotNetCall f c pn ::
              List.replicate (loopCalls env 1 c) (ExecCall.startProcessPrint f) := by
          rw [printTrace_win, tryWindows_eq]; simp [h0, h1, h2]
        have hr : printResult env "win32" (winOpts f c pn ps) =
            Except.error PrintError.allMethodsFailed := by
          rw [printResult_win, tryWindows_eq]; simp [h0, h1, h2]
        have hm2 : methodCalls 2 (printTrace env "win32" (winOpts f c pn ps)) =
            loopCalls env 1 c := by
          simp [ht, methodCalls_cons, methodCalls_replicate, callMethod, dotNetCall]
        have hm3 : methodCalls 3 (printTrace env "win32" (winOpts f c pn ps)) = 0 := by
          simp [ht, methodCalls_cons, methodCalls_replicate, callMethod, dotNetCall]
        refine ⟨?_, fun h => by simp [h] at h0, fun _ => ?_,
          fun _ h => by simp [h] at h1, fun _ _ h => by simp [h] at h2, fun _ _ _ => hr⟩
        · rw [hm2, hm3, methodSelection, ht]
          simp [callMethod, dotNetCall, List.map_replicate]
        · rw [hm2]; exact loopCalls_pos env 1 c (by omega)

/-- Witness for dispatch_windows_chain at a concrete job whose first method
succeeds. -/
theorem dispatch_windows_chain_witness :
    1 ≤ 1 ∧
    ((methodSelection (fun _ => true) "win32" (winOpts "/tmp/a.png" 1 none none) =
      1 :: (List.replicate
              (methodCalls 2 (printTrace (fun _ => true) "win32"
                (winOpts "/tmp/a.png" 1 none none))) 2 ++
            List.replicate
              (methodCalls 3 (printTrace (fun _ => true) "win32"
                (winOpts "/tmp/a.png" 1 none none))) 3))
    ∧ ((fun _ => true : ExecEnv) 0 = true →
        printResult (fun _ => true) "win32" (winOpts "/tmp/a.png" 1 none none) =
          Except.ok () ∧
        methodSelection (fun _ => true) "win32" (winOpts "/tmp/a.png" 1 none none) = [1])
    ∧ ((fun _ => true : ExecEnv) 0 = false →
        0 < methodCalls 2 (printTrace (fun _ => true) "win32"
          (winOpts "/tmp/a.png" 1 none none)))
    ∧ ((fun _ => true : ExecEnv) 0 = false → loopOk (fun _ => true) 1 1 = true →
        printResult (fun _ => true) "win32" (winOpts "/tmp/a.png" 1 none none) =
          Except.ok () ∧
        methodCalls 3 (printTrace (fun _ => true) "win32"
          (winOpts "/tmp/a.png" 1 none none)) = 0)
    ∧ ((fun _ => true : ExecEnv) 0 = false → loopOk (fun _ => true) 1 1 = false →
        isImageFile "/tmp/a.png" = true →
        0 < methodCalls 3 (printTrace (fun _ => true) "win32"
          (winOpts "/tmp/a.png" 1 none none)))
    ∧ ((fun _ => true : ExecEnv) 0 = false → loopOk (fun _ => true) 1 1 = false →
        (isImageFile "/tmp/a.png" = true →
          loopOk (fun _ => true) (1 + loopCalls (fun _ => true) 1 1) 1 = false) →
        printResult (fun _ => true) "win32" (winOpts "/tmp/a.png" 1 none none) =
          Except.error PrintError.allMethodsFailed)) :=
  ⟨by decide, dispatch_windows_chain (fun _ => true) "/tmp/a.png" 1 none none (by decide)⟩

/-- Every invocation of the Windows chain names either the dispatched file or
its PowerShell-escaped form. -/
theorem tryWindows_trace_file (env : ExecEnv) (f : String) (c : Nat)
    (pn : Option String) (ps : Option PaperSize) :
    ∀ call ∈ (tryWindowsPrintMethods env 0 f c pn ps).2.2,
      callFile call = some (psEscape f) ∨ callFile call = some f := by
  intro call hcall
  rw [tryWindows_eq] at hcall
  by_cases h0 : env 0
  · simp [h0] at hcall
    subst hcall
    simp [callFile, dotNetCall]
  · by_cases h1 : loopOk env 1 c
    · simp [h0, h1, List.mem_replicate] at hcall
      rcases hcall with h | ⟨-, h⟩ <;> subst h <;> simp [callFile, dotNetCall]
    · by_cases h2 : isImageFile f
      · simp [h0, h1, h2, List.mem_replicate, List.mem_append] at hcall
        rcases hcall with h | ⟨-, h⟩ | ⟨-, h⟩ <;> subst h <;>
          simp [callFile, dotNetCall, imageViewCall]
      · simp [h0, h1, h2, List.mem_replicate] at hcall
        rcases hcall with h | ⟨-, h⟩ <;> subst h <;> simp [callFile, dotNetCall]

/-- On non-Windows platforms the dispatch is the single lp invocation with the
arguments built from the effective printer, copies and file. -/
theorem print_nonwin (env : ExecEnv) (platform : String) (hw : platform ≠ "win32")
    (opts : PrintOptions) :
    print env platform opts =
      ((if env 0 then Except.ok () else Except.error PrintError.execFailure), 1,
       [ExecCall.lp
         ((match opts.printerName with
           | some p => if 0 < (jsTrim p).length then ["-d", p] else []
           | none => []) ++
          ["-n", toString (if opts.hasAccess then opts.copies else 1),
           if opts.hasAccess then opts.filePath else watermarkPath])]) := by
  have hb : (platform == "win32") = false := by
    simp only [beq_eq_false_iff_ne, ne_eq]
    exact hw
  simp [print, hb]

/-- C2: a restricted-mode job (hasAccess = false) is dispatched exactly as a
fully-accessed job for the fixed bundled placeholder at exactly one copy —
whatever copies and payload the caller supplied — and every invocation the
methods issue names only the substituted placeholder. -/
theorem restricted_mode_substitution (env : ExecEnv) (platform : String)
    (opts : PrintOptions) (h : opts.hasAccess = false) :
    print env platform opts =
      print env platform (winOpts watermarkPath 1 opts.printerName opts.paperSize)
    ∧ ∀ call ∈ printTrace env platform opts, callFile call = some watermarkPath := by
  have heq : print env platform opts =
      print env platform (winOpts watermarkPath 1 opts.printerName opts.paperSize) := by
    simp [print, winOpts, h]
  refine ⟨heq, ?_⟩
  intro call hcall
  rw [printTrace, heq] at hcall
  by_cases hw : platform = "win32"
  · subst hw
    have hsub : (print env "win32"
        (winOpts watermarkPath 1 opts.printerName opts.paperSize)).2.2 =
        (tryWindowsPrintMethods env 0 watermarkPath 1
          opts.printerName opts.paperSize).2.2 :=
      printTrace_win env watermarkPath 1 opts.printerName opts.paperSize
    rw [hsub] at hcall
    have hfc := tryWindows_trace_file env watermarkPath 1
      opts.printerName opts.paperSize call hcall
    have hesc : psEscape watermarkPath = watermarkPath := by decide
    rcases hfc with hc | hc
    · rw [hc, hesc]
    · exact hc
  · rw [print_nonwin env platform hw] at hcall
    simp at hcall
    subst hcall
    rcases opts.printerName with _ | p
    · rfl
    · by_cases ht : 0 < (jsTrim p).length <;> simp [callFile, winOpts, ht]

/-- Witness for restricted_mode_substitution at a concrete restricted job with
seven requested copies. -/
theorem restricted_mode_substitution_witness :
    (PrintOptions.mk "/tmp/secret.png" 7 none false none).hasAccess = false ∧
    (print (fun _ => true) "win32" (PrintOptions.mk "/tmp/secret.png" 7 none false none) =
      print (fun _ => true) "win32"
        (winOpts watermarkPath 1
          (PrintOptions.mk "/tmp/secret.png" 7 none false none).printerName
          (PrintOptions.mk "/tmp/secret.png" 7 none false none).paperSize)
    ∧ ∀ call ∈ printTrace (fun _ => true) "win32"
        (PrintOptions.mk "/tmp/secret.png" 7 none false none),
        callFile call = some watermarkPath) :=
  ⟨rfl, restricted_mode_substitution (fun _ => true) "win32"
    (PrintOptions.mk "/tmp/secret.png" 7 none false none) rfl⟩

/-- C4: on a non-Windows host, dispatch is exactly one lp invocation, the
printer is passed via -d only when non-empty, the full effective copy count
travels as the single -n argument (never looped), and the job succeeds iff
that one invocation exits successfully. -/
theorem nonwindows_single_lp (env : ExecEnv) (platform : String)
    (opts : PrintOptions) (hw : platform ≠ "win32") :
    (printTrace env platform opts).length = 1
    ∧ (∃ dArgs, printTrace env platform opts =
        [ExecCall.lp (dArgs ++
          ["-n", toString (if opts.hasAccess then opts.copies else 1),
           if opts.hasAccess then opts.filePath else watermarkPath])] ∧
        (dArgs = [] ∨ ∃ p, dArgs = ["-d", p] ∧ opts.printerName = some p ∧ p ≠ ""))
    ∧ (printResult env platform opts = Except.ok () ↔ env 0 = true) := by
  have hp := print_nonwin env platform hw opts
  refine ⟨by rw [printTrace, hp]; rfl, ?_, ?_⟩
  · rcases hpn : opts.printerName with _ | p
    · refine ⟨[], ?_, Or.inl rfl⟩
      rw [printTrace, hp, hpn]
    · by_cases ht : 0 < (jsTrim p).length
      · refine ⟨["-d", p], ?_, Or.inr ⟨p, rfl, rfl, ?_⟩⟩
        · rw [printTrace, hp, hpn]
          simp [ht]
        · intro he
          rw [he] at ht
          exact absurd ht (by decide)
      · refine ⟨[], ?_, Or.inl rfl⟩
        rw [printTrace, hp, hpn]
        simp [ht]
  · rw [printResult, hp]
    by_cases h0 : env 0 <;> simp [h0]

/-- Witness for nonwindows_single_lp at a concrete macOS job naming a printer. -/
theorem nonwindows_single_lp_witness :
    ("darwin" : String) ≠ "win32" ∧
    ((printTrace (fun _ => true) "darwin"
        (PrintOptions.mk "/tmp/a.png" 3 (some "HP") true none)).length = 1
    ∧ (∃ dArgs, printTrace (fun _ => true) "darwin"
          (PrintOptions.mk "/tmp/a.png" 3 (some "HP") true none) =
        [ExecCall.lp (dArgs ++
          ["-n",
           toString (if (PrintOptions.mk "/tmp/a.png" 3 (some "HP") true none).hasAccess
             then (PrintOptions.mk "/tmp/a.png" 3 (some "HP") true none).copies else 1),
           if (PrintOptions.mk "/tmp/a.png" 3 (some "HP") true none).hasAccess
             then (PrintOptions.mk "/tmp/a.png" 3 (some "HP") true none).filePath
             else watermarkPath])] ∧
        (dArgs = [] ∨ ∃ p, dArgs = ["-d", p] ∧
          (PrintOptions.mk "/tmp/a.png" 3 (some "HP") true none).printerName = some p ∧
          p ≠ ""))
    ∧ (printResult (fun _ => true) "darwin"
        (PrintOptions.mk "/tmp/a.png" 3 (some "HP") true none) = Except.ok () ↔
        (fun _ => true : ExecEnv) 0 = true)) :=
  ⟨by decide, nonwindows_single_lp (fun _ => true) "darwin"
    (PrintOptions.mk "/tmp/a.png" 3 (some "HP") true none) (by decide)⟩

/-- C5 counterexample: a Windows job requesting two copies whose first method is
attempted (and succeeds) issues exactly one OS invocation — carrying the copy
count 2 natively inside the PowerShell script — not one invocation per copy as
the claim requires of every attempted method. -/
theorem windows_per_copy_counterexample :
    printTrace (fun _ => true) "win32" (winOpts "/tmp/a.png" 2 none none) =
      [ExecCall.dotNetScript "/tmp/a.png" 2 ""]
    ∧ 0 < methodCalls 1 (printTrace (fun _ => true) "win32"
        (winOpts "/tmp/a.png" 2 none none))
    ∧ methodCalls 1 (printTrace (fun _ => true) "win32"
        (winOpts "/tmp/a.png" 2 none none)) ≠ 2
    ∧ printResult (fun _ => true) "win32" (winOpts "/tmp/a.png" 2 none none) =
        Except.ok () := by
  refine ⟨by decide, by decide, by decide, by decide⟩

/-- C5 amended: on the Windows chain, methods 2 and 3 issue one sequential OS
invocation per requested copy (exactly the copy count when the method runs to
success), while method 1 issues a single invocation that passes the copy count
natively inside its script. -/
theorem windows_per_copy_amended (env : ExecEnv) (f : String) (c : Nat)
    (pn : Option String) (ps : Option PaperSize) :
    methodCalls 1 (printTrace env "win32" (winOpts f c pn ps)) = 1
    ∧ dotNetCall f c pn ∈ printTrace env "win32" (winOpts f c pn ps)
    ∧ (env 0 = false → loopOk env 1 c = true →
        methodCalls 2 (printTrace env "win32" (winOpts f c pn ps)) = c)
    ∧ (env 0 = false → loopOk env 1 c = false → isImageFile f = true →
        loopOk env (1 + loopCalls env 1 c) c = true →
        methodCalls 3 (printTrace env "win32" (winOpts f c pn ps)) = c) := by
  have ht := printTrace_win env f c pn ps
  rw [tryWindows_eq] at ht
  by_cases h0 : env 0
  · simp only [h0, if_true] at ht
    refine ⟨?_, ?_, fun h => by simp [h] at h0, fun h => by simp [h] at h0⟩ <;>
      simp [ht, methodCalls_cons, methodCalls, callMethod, dotNetCall]
  · by_cases h1 : loopOk env 1 c
    · have ht2 : printTrace env "win32" (winOpts f c pn ps) =
          dotNetCall f c pn ::
            List.replicate (loopCalls env 1 c) (ExecCall.startProcessPrint f) := by
        rw [ht]; simp [h0, h1]
      refine ⟨?_, ?_, fun _ _ => ?_, fun _ h => by simp [h] at h1⟩
      · simp [ht2, methodCalls_cons, methodCalls_replicate, callMethod, dotNetCall]
      · simp [ht2]
      · rw [ht2, methodCalls_cons]
        simp [callMethod, dotNetCall, methodCalls_replicate,
          loopCalls_of_loopOk env 1 c h1]
    · by_cases h2 : isImageFile f
      · have ht2 : printTrace env "win32" (winOpts f c pn ps) =
            dotNetCall f c pn ::
              (List.replicate (loopCalls env 1 c) (ExecCall.startProcessPrint f) ++
               List.replicate (loopCalls env (1 + loopCalls env 1 c) c)
                 (imageViewCall f pn)) := by
          rw [ht]; simp [h0, h1, h2]
        refine ⟨?_, ?_, fun _ h => by simp [h] at h1, fun _ _ _ h3 => ?_⟩
        · simp [ht2, methodCalls_cons, methodCalls_append, methodCalls_replicate,
            callMethod, dotNetCall, imageViewCall]
        · simp [ht2]
        · rw [ht2, methodCalls_cons]
          simp [callMethod, dotNetCall, imageViewCall, methodCalls_append,
            methodCalls_replicate, loopCalls_of_loopOk env (1 + loopCalls env 1 c) c h3]
      · have ht2 : printTrace env "win32" (winOpts f c pn ps) =
            dotNetCall f c pn ::
              List.replicate (loopCalls env 1 c) (ExecCall.startProcessPrint f) := by
          rw [ht]; simp [h0, h1, h2]
        refine ⟨?_, ?_, fun _ h => by simp [h] at h1, fun _ _ h => by simp [h] at h2⟩
        · simp [ht2, methodCalls_cons, methodCalls_replicate, callMethod, dotNetCall]
        · simp [ht2]

/-- Witness for windows_per_copy_amended at a concrete job where method 1 fails
and method 2 succeeds over three copies. -/
theorem windows_per_copy_amended_witness :
    methodCalls 1 (printTrace (fun k => decide (0 < k)) "win32"
      (winOpts "/tmp/a.png" 3 none none)) = 1
    ∧ dotNetCall "/tmp/a.png" 3 none ∈ printTrace (fun k => decide (0 < k)) "win32"
        (winOpts "/tmp/a.png" 3 none none)
    ∧ ((fun k => decide (0 < k) : ExecEnv) 0 = false →
        loopOk (fun k => decide (0 < k)) 1 3 = true →
        methodCalls 2 (printTrace (fun k => decide (0 < k)) "win32"
          (winOpts "/tmp/a.png" 3 none none)) = 3)
    ∧ ((fun k => decide (0 < k) : ExecEnv) 0 = false →
        loopOk (fun k => decide (0 < k)) 1 3 = false → isImageFile "/tmp/a.png" = true →
        loopOk (fun k => decide (0 < k))
          (1 + loopCalls (fun k => decide (0 < k)) 1 3) 3 = true →
        methodCalls 3 (printTrace (fun k => decide (0 < k)) "win32"
          (winOpts "/tmp/a.png" 3 none none)) = 3) :=
  windows_per_copy_amended (fun k => decide (0 < k)) "/tmp/a.png" 3 none none

/-- C6: the legacy ImageView method is attempted only for files whose extension
is in the fixed image set, and when methods 1 and 2 have failed on a non-image
artifact, method 3 is skipped entirely and dispatch fails with the
AllMethodsFailed error. -/
theorem imageview_gating (env : ExecEnv) (f : String) (c : Nat)
    (pn : Option String) (ps : Option PaperSize) :
    (0 < methodCalls 3 (printTrace env "win32" (winOpts f c pn ps)) →
      isImageFile f = true)
    ∧ (env 0 = false → loopOk env 1 c = false → isImageFile f = false →
        methodCalls 3 (printTrace env "win32" (winOpts f c pn ps)) = 0 ∧
        printResult env "win32" (winOpts f c pn ps) =
          Except.error PrintError.allMethodsFailed) := by
  have ht := printTrace_win env f c pn ps
  have hr := printResult_win env f c pn ps
  rw [tryWindows_eq] at ht hr
  by_cases h2 : isImageFile f
  · exact ⟨fun _ => h2, fun _ _ h => by simp [h] at h2⟩
  · by_cases h0 : env 0
    · have ht2 : printTrace env "win32" (winOpts f c pn ps) = [dotNetCall f c pn] := by
        rw [ht]; simp [h0]
      refine ⟨fun hpos => ?_, fun h => by simp [h] at h0⟩
      rw [ht2] at hpos
      simp [methodCalls_cons, methodCalls, callMethod, dotNetCall] at hpos
    · by_cases h1 : loopOk env 1 c
      · have ht2 : printTrace env "win32" (winOpts f c pn ps) =
            dotNetCall f c pn ::
              List.replicate (loopCalls env 1 c) (ExecCall.startProcessPrint f) := by
          rw [ht]; simp [h0, h1]
        refine ⟨fun hpos => ?_, fun _ h => by simp [h] at h1⟩
        rw [ht2] at hpos
        simp [methodCalls_cons, methodCalls_replicate, callMethod, dotNetCall] at hpos
      · have ht2 : printTrace env "win32" (winOpts f c pn ps) =
            dotNetCall f c pn ::
              List.replicate (loopCalls env 1 c) (ExecCall.startProcessPrint f) := by
          rw [ht]; simp [h0, h1, h2]
        have hr2 : printResult env "win32" (winOpts f c pn ps) =
            Except.error PrintError.allMethodsFailed := by
          rw [hr]; simp [h0, h1, h2]
        refine ⟨fun hpos => ?_, fun _ _ _ => ⟨?_, hr2⟩⟩
        · rw [ht2] at hpos
          simp [methodCalls_cons, methodCalls_replicate, callMethod, dotNetCall] at hpos
        · rw [ht2]
          simp [methodCalls_cons, methodCalls_replicate, callMethod, dotNetCall]

/-- Witness for imageview_gating at a concrete non-image job where every method
fails: method 3 is skipped and dispatch reports AllMethodsFailed. -/
theorem imageview_gating_witness :
    (0 < methodCalls 3 (printTrace (fun _ => false) "win32"
        (winOpts "/tmp/report.pdf" 1 none none)) →
      isImageFile "/tmp/report.pdf" = true)
    ∧ ((fun _ => false : ExecEnv) 0 = false → loopOk (fun _ => false) 1 1 = false →
        isImageFile "/tmp/report.pdf" = false →
        methodCalls 3 (printTrace (fun _ => false) "win32"
          (winOpts "/tmp/report.pdf" 1 none none)) = 0 ∧
        printResult (fun _ => false) "win32" (winOpts "/tmp/report.pdf" 1 none none) =
          Except.error PrintError.allMethodsFailed) :=
  imageview_gating (fun _ => false) "/tmp/report.pdf" 1 none none

/-- C3: for every job that passes the data guard (a present, non-empty data
string) and so reaches the artifact stage, the handler's finally block always
attempts removal of the scratch artifact (named jobId plus the mime-derived
extension), a successful removal leaves no artifact behind on any exit path,
and a removal failure never changes the reported outcome. -/
theorem print_artifact_cleanup (env : ExecEnv) (platform : String) (st : ServerState)
    (req : ReqBody) (jobId tmpDir : String) (writeOk rmOk : Bool) (d : String)
    (hd : req.data = some d) (hne : d ≠ "") :
    (printHandler env platform st req jobId tmpDir writeOk rmOk).rmAttempted = true
    ∧ (rmOk = true →
        (printHandler env platform st req jobId tmpDir writeOk rmOk).fileExistsAfter =
          false)
    ∧ (printHandler env platform st req jobId tmpDir writeOk rmOk).status =
        (printHandler env platform st req jobId tmpDir writeOk true).status
    ∧ (printHandler env platform st req jobId tmpDir writeOk rmOk).success =
        (printHandler env platform st req jobId tmpDir writeOk true).success
    ∧ (printHandler env platform st req jobId tmpDir writeOk rmOk).errorMsg =
        (printHandler env platform st req jobId tmpDir writeOk true).errorMsg
    ∧ (∀ opts, (printHandler env platform st req jobId tmpDir writeOk rmOk).dispatched =
          some opts →
        opts.filePath = tmpDir ++ "/" ++ jobId ++ "." ++ extFor req.mimeType) := by
  have hbe : (d == "") = false := by
    simp only [beq_eq_false_iff_ne, ne_eq]
    exact hne
  simp only [printHandler, hd, hbe, Bool.false_eq_true, if_false]
  cases writeOk
  · simp
  · simp only [if_true]
    split <;> simp_all

/-- Witness for print_artifact_cleanup at a concrete JPEG job whose removal
fails (rmOk = false): the response is unchanged versus a successful removal. -/
theorem print_artifact_cleanup_witness :
    (ReqBody.mk 1 "image/jpeg" (some "ZGF0YQ") none true none).data = some "ZGF0YQ" ∧
    ("ZGF0YQ" : String) ≠ "" ∧
    ((printHandler (fun _ => true) "darwin" (ServerState.mk "HP" ["HP"])
        (ReqBody.mk 1 "image/jpeg" (some "ZGF0YQ") none true none)
        "job1" "/tmp" true false).rmAttempted = true
    ∧ (false = true →
        (printHandler (fun _ => true) "darwin" (ServerState.mk "HP" ["HP"])
          (ReqBody.mk 1 "image/jpeg" (some "ZGF0YQ") none true none)
          "job1" "/tmp" true false).fileExistsAfter = false)
    ∧ (printHandler (fun _ => true) "darwin" (ServerState.mk "HP" ["HP"])
        (ReqBody.mk 1 "image/jpeg" (some "ZGF0YQ") none true none)
        "job1" "/tmp" true false).status =
      (printHandler (fun _ => true) "darwin" (ServerState.mk "HP" ["HP"])
        (ReqBody.mk 1 "image/jpeg" (some "ZGF0YQ") none true none)
        "job1" "/tmp" true true).status
    ∧ (printHandler (fun _ => true) "darwin" (ServerState.mk "HP" ["HP"])
        (ReqBody.mk 1 "image/jpeg" (some "ZGF0YQ") none true none)
        "job1" "/tmp" true false).success =
      (printHandler (fun _ => true) "darwin" (ServerState.mk "HP" ["HP"])
        (ReqBody.mk 1 "image/jpeg" (some "ZGF0YQ") none true none)
        "job1" "/tmp" true true).success
    ∧ (printHandler (fun _ => true) "darwin" (ServerState.mk "HP" ["HP"])
        (ReqBody.mk 1 "image/jpeg" (some "ZGF0YQ") none true none)
        "job1" "/tmp" true false).errorMsg =
      (printHandler (fun _ => true) "darwin" (ServerState.mk "HP" ["HP"])
        (ReqBody.mk 1 "image/jpeg" (some "ZGF0YQ") none true none)
        "job1" "/tmp" true true).errorMsg
    ∧ (∀ opts, (printHandler (fun _ => true) "darwin" (ServerState.mk "HP" ["HP"])
          (ReqBody.mk 1 "image/jpeg" (some "ZGF0YQ") none true none)
          "job1" "/tmp" true false).dispatched = some opts →
        opts.filePath = "/tmp" ++ "/" ++ "job1" ++ "." ++
          extFor (ReqBody.mk 1 "image/jpeg" (some "ZGF0YQ") none true none).mimeType)) :=
  ⟨rfl, by decide,
    print_artifact_cleanup (fun _ => true) "darwin" (ServerState.mk "HP" ["HP"])
      (ReqBody.mk 1 "image/jpeg" (some "ZGF0YQ") none true none)
      "job1" "/tmp" true false "ZGF0YQ" rfl (by decide)⟩

/-- C7: the inventory operations never surface an error: a failed default query,
an empty default answer and an unparseable lpstat output all collapse to the
absent value, and a failed or unproductive enumeration collapses to the empty
list, with no distinction among failure modes. -/
theorem inventory_never_errors :
    (∀ w : Bool, detectDefaultPrinter w (Except.error ()) = none)
    ∧ detectDefaultPrinter true (Except.ok "") = none
    ∧ detectDefaultPrinter false (Except.ok "no system default destination") = none
    ∧ (∀ w : Bool, getAvailablePrinters w (Except.error ()) = [])
    ∧ getAvailablePrinters false (Except.ok "lpstat: command output unavailable") = []
    ∧ getAvailablePrinters true (Except.ok "") = [] := by
  refine ⟨fun w => by cases w <;> rfl, by decide, by decide,
    fun w => by cases w <;> rfl, by decide, by decide⟩

/-- C8: when the OS printer enumeration throws during a refresh, the endpoint
answers 500 with the fixed error text and success false, and the stored
printer snapshot keeps its pre-refresh value. -/
theorem refresh_failure_preserves (st : ServerState) :
    (refreshHandler st (Except.error ())).1 =
      RefreshResult.mk 500 false (some "Failed to refresh printers") none
    ∧ (refreshHandler st (Except.error ())).2 = st :=
  ⟨rfl, rfl⟩

/-- C9 counterexample: a job whose requested printer is the literal "default",
absent from an empty known-printers snapshot, resolves to a non-empty name and
is dispatched, yet no warning is logged — refuting the claim that a warning is
logged whenever the resolved name is non-empty and absent. -/
theorem printer_warning_counterexample :
    (printHandler (fun _ => true) "darwin" (ServerState.mk "" [])
        (ReqBody.mk 1 "image/png" (some "x") (some "default") true none)
        "job" "/tmp" true true).dispatched =
      some (PrintOptions.mk "/tmp/job.png" 1 (some "default") true none)
    ∧ jsOrString (some "default") "" = "default"
    ∧ ("default" : String) ≠ ""
    ∧ ("default" : String) ∉ ([] : List String)
    ∧ (printHandler (fun _ => true) "darwin" (ServerState.mk "" [])
        (ReqBody.mk 1 "image/png" (some "x") (some "default") true none)
        "job" "/tmp" true true).warned = false := by
  refine ⟨by decide, by decide, by decide, by decide, by decide⟩

/-- C9 amended: for every job passing the data guard (present, non-empty data),
the effective printer is the requested one when non-empty and otherwise the
process-wide default; the job is never blocked on inventory absence — the
dispatcher always receives the resolved name — and the warning fires exactly
when the resolved name is non-empty, differs from the literal "default", and
is absent from the known-printers snapshot. -/
theorem printer_resolution_amended (env : ExecEnv) (platform : String)
    (st : ServerState) (req : ReqBody) (jobId tmpDir : String) (rmOk : Bool)
    (d : String) (hd : req.data = some d) (hne : d ≠ "") :
    (∀ p, req.targetPrinter = some p → p ≠ "" →
      jsOrString req.targetPrinter st.printerName = p)
    ∧ ((req.targetPrinter = none ∨ req.targetPrinter = some "") →
      jsOrString req.targetPrinter st.printerName = st.printerName)
    ∧ (∃ opts, (printHandler env platform st req jobId tmpDir true rmOk).dispatched =
          some opts ∧
        opts.printerName = some (jsOrString req.targetPrinter st.printerName))
    ∧ (printHandler env platform st req jobId tmpDir true rmOk).warned =
        printerWarning (jsOrString req.targetPrinter st.printerName)
          st.availablePrinters := by
  have hbe : (d == "") = false := by
    simp only [beq_eq_false_iff_ne, ne_eq]
    exact hne
  refine ⟨?_, ?_, ?_, ?_⟩
  · intro p hp hpe
    simp [jsOrString, hp, hpe]
  · rintro (hp | hp) <;> simp [jsOrString, hp]
  · simp only [printHandler, hd, hbe, Bool.false_eq_true, if_false, if_true]
    split <;> exact ⟨_, rfl, rfl⟩
  · simp only [printHandler, hd, hbe, Bool.false_eq_true, if_false, if_true]
    split <;> rfl

/-- Witness for printer_resolution_amended at a concrete job requesting a
printer absent from the snapshot: the job is still dispatched to it. -/
theorem printer_resolution_amended_witness :
    (ReqBody.mk 2 "image/png" (some "x") (some "Ghost") true none).data = some "x" ∧
    ("x" : String) ≠ "" ∧
    ((∀ p, (ReqBody.mk 2 "image/png" (some "x") (some "Ghost") true none).targetPrinter =
          some p → p ≠ "" →
      jsOrString (ReqBody.mk 2 "image/png" (some "x") (some "Ghost") true none).targetPrinter
        (ServerState.mk "HP" ["HP"]).printerName = p)
    ∧ (((ReqBody.mk 2 "image/png" (some "x") (some "Ghost") true none).targetPrinter = none ∨
        (ReqBody.mk 2 "image/png" (some "x") (some "Ghost") true none).targetPrinter =
          some "") →
      jsOrString (ReqBody.mk 2 "image/png" (some "x") (some "Ghost") true none).targetPrinter
        (ServerState.mk "HP" ["HP"]).printerName = (ServerState.mk "HP" ["HP"]).printerName)
    ∧ (∃ opts, (printHandler (fun _ => true) "darwin" (ServerState.mk "HP" ["HP"])
          (ReqBody.mk 2 "image/png" (some "x") (some "Ghost") true none)
          "j2" "/tmp" true true).dispatched = some opts ∧
        opts.printerName = some (jsOrString
          (ReqBody.mk 2 "image/png" (some "x") (some "Ghost") true none).targetPrinter
          (ServerState.mk "HP" ["HP"]).printerName))
    ∧ (printHandler (fun _ => true) "darwin" (ServerState.mk "HP" ["HP"])
        (ReqBody.mk 2 "image/png" (some "x") (some "Ghost") true none)
        "j2" "/tmp" true true).warned =
      printerWarning (jsOrString
        (ReqBody.mk 2 "image/png" (some "x") (some "Ghost") true none).targetPrinter
        (ServerState.mk "HP" ["HP"]).printerName)
        (ServerState.mk "HP" ["HP"]).availablePrinters) :=
  ⟨rfl, by decide,
    printer_resolution_amended (fun _ => true) "darwin" (ServerState.mk "HP" ["HP"])
      (ReqBody.mk 2 "image/png" (some "x") (some "Ghost") true none)
      "j2" "/tmp" true "x" rfl (by decide)⟩

/-- The Windows chain ignores the page-size hint entirely: none of its methods
reads the paperSize argument. -/
theorem tryWindows_paperSize_irrelevant (env : ExecEnv) (k : Nat) (f : String)
    (c : Nat) (pn : Option String) (ps1 ps2 : Option PaperSize) :
    tryWindowsPrintMethods env k f c pn ps1 = tryWindowsPrintMethods env k f c pn ps2 := by
  simp [tryWindowsPrintMethods, printWithDotNetPrinting, printWithPowerShell,
    printWithImageView]

/-- The whole dispatch ignores the page-size hint: result, oracle consumption
and issued invocations are identical for any two values of it. -/
theorem print_paperSize_irrelevant (env : ExecEnv) (platform : String)
    (opts : PrintOptions) (ps : Option PaperSize) :
    print env platform { opts with paperSize := ps } = print env platform opts := by
  rcases opts with ⟨f, c, pn, ha, ps0⟩
  simp only [print]
  rw [tryWindows_paperSize_irrelevant env 0 (if ha then f else watermarkPath)
    (if ha then c else 1) pn ps ps0]

/-- C10 counterexample: contrary to the claim that jobs differing only in
targetPageSize exist for which the method selection differs, no two such jobs
ever differ in method selection — the hint is ignored by dispatch. -/
theorem pagesize_selection_counterexample :
    ¬ ∃ (env : ExecEnv) (platform : String) (o : PrintOptions)
        (ps1 ps2 : Option PaperSize),
        methodSelection env platform { o with paperSize := ps1 } ≠
          methodSelection env platform { o with paperSize := ps2 } := by
  rintro ⟨env, platform, o, ps1, ps2, hne⟩
  apply hne
  unfold methodSelection printTrace
  rw [print_paperSize_irrelevant env platform o ps1,
    print_paperSize_irrelevant env platform o ps2]

/-- C10 amended: the targetPageSize hint is accepted and threaded to the
dispatch methods but ignored: two jobs differing only in it have identical
dispatch behaviour — the same method selection, issued invocations (hence the
same artifact and printer arguments), copy counts and outcome. -/
theorem pagesize_ignored_amended (env : ExecEnv) (platform : String)
    (opts : PrintOptions) (ps1 ps2 : Option PaperSize) :
    print env platform { opts with paperSize := ps1 } =
      print env platform { opts with paperSize := ps2 } := by
  rw [print_paperSize_irrelevant env platform opts ps1,
    print_paperSize_irrelevant env platform opts ps2]
